import Mathlib

/-!
Shallow embedding of the multi-agent medical-analysis pipeline
(`main.py`, `Utils/Agents.py`) and verification of the frozen claims.

Modelling conventions:
* Python strings are `String`; character-level text processing is done on
  `List Char` (`String.toList`), rebuilt with `String.mk`.  Python `str.lower`
  is modelled as per-character ASCII `Char.toLower` (all texts the pipeline
  compares against are ASCII).
* Python `str.replace(pat, "")` (replace ALL non-overlapping occurrences,
  scanning left to right) is `replaceAll`, implemented with explicit fuel so
  that it is structurally recursive and kernel-evaluable.
* The file system (results directory, cache directory) is an association
  list from file name to contents, first binding wins; writing a file
  prepends a binding (overwrite).  `json.dump`/`json.load` of the result
  payload is modelled as storing the payload value itself.
* The upstream Gemini service is an oracle supplied in an environment
  record.  A call that raises a Python exception is `Except.error`;
  the per-attempt outcome stream of `Agent.run` is `Nat → Outcome`.
-/

/-- `startsWithChars s pat` is Python `s.startswith(pat)` on chars. -/
def startsWithChars : List Char → List Char → Bool
  | _, [] => true
  | [], _ :: _ => false
  | c :: s, p :: ps => c = p && startsWithChars s ps

/-- `endsWithChars s pat` is Python `s.endswith(pat)` on chars. -/
def endsWithChars (s pat : List Char) : Bool :=
  startsWithChars s.reverse pat.reverse

/-- `containsSub s pat` is Python `pat in s` (substring containment). -/
def containsSub : List Char → List Char → Bool
  | [], pat => pat.isEmpty
  | c :: rest, pat => startsWithChars (c :: rest) pat || containsSub rest pat

/-- `Occurs pat s` says `pat` occurs as a contiguous substring of `s`
(the specification-level meaning of "contains"). -/
def Occurs (pat s : List Char) : Prop :=
  ∃ u v, s = u ++ pat ++ v

/-- Python `str.lower()`, ASCII model. -/
def pyLower (s : List Char) : List Char := s.map Char.toLower

/-- Python `str.strip()` (whitespace at both ends). -/
def trimChars (l : List Char) : List Char :=
  ((l.dropWhile Char.isWhitespace).reverse.dropWhile Char.isWhitespace).reverse

/-- Rebuild a `String` from characters. -/
def ofChars (l : List Char) : String := String.mk l

/-- Python `str.strip()` on a `String`. -/
def pyStrip (s : String) : String := ofChars (trimChars s.toList)

/-- Python `str.splitlines()` after a strip: split on newline characters.
(`splitlines` also handles other line terminators and drops a trailing
empty line; the pipeline only feeds it stripped model text and skips blank
lines, so splitting on newline is observationally the same.) -/
def splitLinesChars : List Char → List (List Char)
  | [] => [[]]
  | c :: rest =>
    match splitLinesChars rest with
    | [] => if c = '\n' then [[], []] else [[c]]
    | line :: ls => if c = '\n' then [] :: line :: ls else (c :: line) :: ls

/-- One step of Python `s.replace(pat, "")` with fuel (the fuel is an upper
bound on the length of `s`; each step consumes at least one character). -/
def replaceAllAux (pat : List Char) : Nat → List Char → List Char
  | _, [] => []
  | 0, s => s
  | fuel + 1, c :: rest =>
    if !pat.isEmpty && startsWithChars (c :: rest) pat then
      replaceAllAux pat fuel ((c :: rest).drop pat.length)
    else
      c :: replaceAllAux pat fuel rest

/-- Python `s.replace(pat, "")`: delete all non-overlapping occurrences of
`pat`, scanning left to right. -/
def replaceAll (s pat : List Char) : List Char :=
  replaceAllAux pat s.length s

/-- `main.py` line 45-48, `looks_like_error(text)`: true if the text is
empty, or its lowercase form contains one of the four failure-indicator
substrings.  (A missing (`None`) text is modelled as `""` at call sites;
Python `not text` treats both the same.) -/
def looks_like_error (text : String) : Bool :=
  if text.toList.isEmpty then true
  else
    let lower := pyLower text.toList
    containsSub lower "unable to".toList || containsSub lower "error".toList ||
      containsSub lower "cannot".toList || containsSub lower "quota".toList

/-- Specification-level error-shaped predicate, written from the spec words:
the text is empty/missing or its lowercase form contains one of the fixed
substrings "unable to", "error", "cannot", "quota". -/
def isErrorShapedSpec (text : String) : Prop :=
  text = "" ∨ Occurs "unable to".toList (pyLower text.toList) ∨
    Occurs "error".toList (pyLower text.toList) ∨
    Occurs "cannot".toList (pyLower text.toList) ∨
    Occurs "quota".toList (pyLower text.toList)

/-- A well-formed multi-sentence clinical report used by the spec example. -/
def clinicalReportSample : String :=
  "The patient presents with stable vital signs. Cardiac examination is normal. Continue the current treatment plan and review in two weeks."

/-- Outcome of one attempt of the upstream generate-content call inside
`Agent.run` (`Utils/Agents.py`): the call returns text, raises a Gemini
`APIError`, or raises some other exception; `str(e)` is the carried
message. -/
inductive Outcome where
  | success (text : String)
  | apiError (msg : String)
  | otherError (msg : String)
deriving DecidableEq

/-- `Utils/Agents.py`: `MAX_RETRIES = 3`. -/
def MAX_RETRIES : Nat := 3

/-- `Utils/Agents.py`: `RETRY_DELAY_SECONDS = 15`. -/
def RETRY_DELAY_SECONDS : Nat := 15

/-- The transient-failure test of `Agent.run`: `"503 UNAVAILABLE" in str(e)`. -/
def is503 (msg : String) : Bool :=
  containsSub msg.toList "503 UNAVAILABLE".toList

/-- Result of `Agent.run`: returned text, number of attempts made, and the
sleep delays performed (one entry per retry, in order). -/
structure RunOut where
  result : String
  attemptsMade : Nat
  delays : List Nat
deriving DecidableEq

/-- The `for attempt in range(MAX_RETRIES)` loop of `Agent.run`
(`Utils/Agents.py`), with the per-attempt outcome of
`client.models.generate_content` supplied as the oracle `f`.  The fuel is
the number of loop iterations left; when it reaches zero the fall-through
`return "Error: Failed to generate content after all retries."` fires. -/
def agentRunAux (f : Nat → Outcome) : Nat → Nat → RunOut
  | 0, attempt => ⟨"Error: Failed to generate content after all retries.", attempt, []⟩
  | fuel + 1, attempt =>
    match f attempt with
    | .success t => ⟨t, attempt + 1, []⟩
    | .apiError m =>
      if is503 m && decide (attempt < MAX_RETRIES - 1) then
        let r := agentRunAux f fuel (attempt + 1)
        ⟨r.result, r.attemptsMade, RETRY_DELAY_SECONDS :: r.delays⟩
      else ⟨"Error: " ++ m, attempt + 1, []⟩
    | .otherError m => ⟨"Error: " ++ m, attempt + 1, []⟩

/-- `Agent.run` on an outcome stream: start the loop at attempt 0 with
`MAX_RETRIES` iterations of fuel. -/
def agentRun (f : Nat → Outcome) : RunOut := agentRunAux f MAX_RETRIES 0

/-- The three fixed specialist roles (`main.py`:
`specialist_agents = [Cardiologist, Psychologist, Pulmonologist]`). -/
inductive Role where
  | cardiologist
  | psychologist
  | pulmonologist
deriving DecidableEq

/-- `agent_class.__name__.lower()`, the key of `specialist_outputs`. -/
def roleName : Role → String
  | .cardiologist => "cardiologist"
  | .psychologist => "psychologist"
  | .pulmonologist => "pulmonologist"

/-- `agent_class.__name__`, used as the artifact header. -/
def roleClassName : Role → String
  | .cardiologist => "Cardiologist"
  | .psychologist => "Psychologist"
  | .pulmonologist => "Pulmonologist"

/-- Outcome of one submitted specialist task
(`executor.submit(run_specialist_agent, ...)`): either the returned report
text, or a raised exception with message `e`.  A `None` response text is
modelled as `""` (the pipeline treats both as falsy). -/
inductive TaskOutcome where
  | ok (text : String)
  | exn (msg : String)
deriving DecidableEq

/-- Collection loop over `concurrent.futures.as_completed` (`main.py`):
a successful future contributes its text, a raised exception is captured
as the text "Error generating <agent name> report: <cause>". -/
def collectSpecialists (outcomes : Role → TaskOutcome) (r : Role) : String :=
  match outcomes r with
  | .ok t => t
  | .exn e => "Error generating " ++ roleName r ++ " report: " ++ e

/-- The fully collected `specialist_outputs` map as a role-keyed list. -/
def specialistMap (outcomes : Role → TaskOutcome) : List (Role × String) :=
  [(.cardiologist, collectSpecialists outcomes .cardiologist),
   (.psychologist, collectSpecialists outcomes .psychologist),
   (.pulmonologist, collectSpecialists outcomes .pulmonologist)]

/-- The line-bucketing loop of `generate_steps_split` (`main.py`):
blank lines are skipped, a line containing "immediate" (lowercased)
switches the current bucket to immediate, a line containing "follow"
switches to follow-up, a leading "-" or "•" bullet prefix is stripped
(followed by a strip), and the line is appended to the current bucket.
The flag is `true` while the current bucket is "immediate". -/
def stepsLoop : List (List Char) → Bool → List (List Char) × List (List Char)
  | [], _ => ([], [])
  | line :: rest, currentImm =>
    let clean := trimChars line
    if clean.isEmpty then stepsLoop rest currentImm
    else if containsSub (pyLower clean) "immediate".toList then stepsLoop rest true
    else if containsSub (pyLower clean) "follow".toList then stepsLoop rest false
    else
      let clean2 :=
        if startsWithChars clean ['-'] || startsWithChars clean ['•'] then
          trimChars (clean.drop 1)
        else clean
      let (imm, fol) := stepsLoop rest currentImm
      if currentImm then (clean2 :: imm, fol) else (imm, clean2 :: fol)

/-- The pure parsing part of `generate_steps_split` (`main.py`), applied to
the raw response text: `text = response.text.strip().splitlines()`, the
bucketing loop starting with `current = "immediate"`, and the final
truncation `return immediate[:3], followup[:5]`. -/
def generate_steps_split_parse (responseText : String) : List String × List String :=
  let lines := splitLinesChars (trimChars responseText.toList)
  let (imm, fol) := stepsLoop lines true
  ((imm.take 3).map ofChars, (fol.take 5).map ofChars)

/-- The fixed 6-bullet structured model response from the spec example:
3 bullets under an "Immediate" marker, 3 under a "Follow-up" marker. -/
def sixBulletSample : String :=
  "Immediate Steps:\n- Take the prescribed medication\n- Rest at home\n- Drink plenty of water\nFollow-up Steps:\n- Visit the clinic in two weeks\n- Repeat the blood test\n- Review results with your doctor"

/-- `main.py`, `cache_path_for`: the key part,
`filename.replace(".txt", "").replace(".pdf", "").replace(".doc", "").replace(".docx", "")`.
Each `replace` deletes ALL occurrences of its pattern, in the given order. -/
def cache_key (filename : String) : String :=
  ofChars (replaceAll (replaceAll (replaceAll (replaceAll filename.toList
    ".txt".toList) ".pdf".toList) ".doc".toList) ".docx".toList)

/-- `main.py`, `cache_path_for`: join the cache directory with the key part
followed by ".json". -/
def cache_path_for (filename : String) : String :=
  "cache/" ++ cache_key filename ++ ".json"

/-- The full result payload (`result_payload` dict in
`run_multi_agent_analysis`), also the value stored in a cache entry. -/
structure Payload where
  final_report_path : String
  raw_mdt_report_path : String
  raw_mdt_report : String
  patient_report : String
  immediate_steps : List String
  followup_steps : List String
  cardiologist_report : String
  pulmonologist_report : String
  psychologist_report : String
deriving DecidableEq

/-- Association-list lookup modelling a file-system read by name (first
binding wins; a write prepends, hence overwrites). -/
def fsFind {α : Type} (fs : List (String × α)) (k : String) : Option α :=
  match fs with
  | [] => none
  | (name, v) :: rest => if name = k then some v else fsFind rest k

/-- `main.py`, `save_cache(filename, data)`: `json.dump` the payload to
`cache_path_for(filename)`.  The JSON round trip is modelled as storing
the payload value itself. -/
def save_cache (fs : List (String × Payload)) (filename : String) (data : Payload) :
    List (String × Payload) :=
  (cache_path_for filename, data) :: fs

/-- `main.py`, `load_cache(filename)`: `json.load` from
`cache_path_for(filename)`, `None` when the file does not exist. -/
def load_cache (fs : List (String × Payload)) (filename : String) : Option Payload :=
  fsFind fs (cache_path_for filename)

/-- Python `base_filename.replace(".txt", "")`, used to build artifact
file names in `main.py`. -/
def stripTxt (s : String) : String :=
  ofChars (replaceAll s.toList ".txt".toList)

/-- `save_report(file_name, content, header)` file contents:
a "--- <header> ---" line, a blank line, then the content. -/
def reportFileBody (header content : String) : String :=
  "--- " ++ header ++ " ---\n\n" ++ content

/-- The artifact writes performed by the three `run_specialist_agent`
tasks: a task whose agent call returned a truthy (non-empty) report saves
an artifact named by the base (with ".txt" removed), the lowercase role
name and a "_report.txt" ending; a task that raised saves
nothing (the exception fired before the save). -/
def specialistStoreWrites (base : String) (outcomes : Role → TaskOutcome) :
    List (String × String) :=
  [Role.cardiologist, Role.psychologist, Role.pulmonologist].filterMap fun r =>
    match outcomes r with
    | .ok t =>
      if t.toList.isEmpty then none
      else some (stripTxt base ++ "_" ++ roleName r ++ "_report.txt",
        reportFileBody (roleClassName r) t)
    | .exn _ => none

/-- The five suffixes recognised by `rebuild_cache_from_results`. -/
def rebuildSuffixes : List String :=
  ["_patient_summary.txt", "_internal_mdt_report.txt", "_cardiologist_report.txt",
   "_psychologist_report.txt", "_pulmonologist_report.txt"]

/-- `base_from_filename` inside `rebuild_cache_from_results`: the first
recognised suffix the name ends with is removed via `name.replace(suffix, "")`
(again a replace-ALL), otherwise `None`. -/
def base_from_filename (name : String) : Option String :=
  match rebuildSuffixes.find? (fun suf => endsWithChars name.toList suf.toList) with
  | some suf => some (ofChars (replaceAll name.toList suf.toList))
  | none => none

/-- `read_if_exists` inside `rebuild_cache_from_results`: file contents or
`""`. -/
def read_if_exists (store : List (String × String)) (name : String) : String :=
  (fsFind store name).getD ""

/-- The `data` dict rebuilt for one base identifier by
`rebuild_cache_from_results`. -/
def rebuildEntry (store : List (String × String)) (base : String) : Payload :=
  { final_report_path := "results/" ++ base ++ "_patient_summary.txt"
    raw_mdt_report_path := "results/" ++ base ++ "_internal_mdt_report.txt"
    raw_mdt_report := read_if_exists store (base ++ "_internal_mdt_report.txt")
    patient_report := read_if_exists store (base ++ "_patient_summary.txt")
    immediate_steps := []
    followup_steps := []
    cardiologist_report := read_if_exists store (base ++ "_cardiologist_report.txt")
    psychologist_report := read_if_exists store (base ++ "_psychologist_report.txt")
    pulmonologist_report := read_if_exists store (base ++ "_pulmonologist_report.txt") }

/-- `main.py`, `rebuild_cache_from_results()`: scan the results area for
`*.txt` artifacts, group them by base identifier, rebuild one entry per
base and `save_cache` it only when its patient report is not error-shaped.
The returned list is the cache writes the routine performs (key, payload).
(Python iterates a `set` in unspecified order; the model uses first-seen
order, which does not affect any per-entry property.) -/
def rebuild_cache_from_results (store : List (String × String)) :
    List (String × Payload) :=
  ((store.filterMap fun nv =>
      if endsWithChars nv.1.toList ".txt".toList then base_from_filename nv.1
      else none).dedup).filterMap fun base =>
    let data := rebuildEntry store base
    if looks_like_error data.patient_report then none else some (base, data)

/-- The patient-summary prompt of `generate_patient_summary` (`main.py`):
the fixed instruction text with the merged report spliced at the end. -/
def patientSummaryPrompt (full_mdt_report : String) : String :=
  "\nYou are a medical assistant.\n\nCreate a SHORT and CLEAR patient-friendly medical report summary from the information provided below.\n\nRules:\n- Use simple, non-technical language.\n- Maximum 8 bullet points.\n- No medical jargon.\n- No doctor or specialist names.\n- Focus ONLY on the confirmed diagnosis and clear next steps/treatment.\n\nMedical information:\n"
    ++ full_mdt_report ++ "\n"

/-- The two-list prompt of `generate_steps_split` (`main.py`). -/
def stepsPrompt (full_mdt_report : String) : String :=
  "\nYou are a clinical assistant.\n\nFrom the information below, produce TWO separate bullet lists:\n\n1) Immediate Steps (actions to do now or within days)\n2) Follow-up Steps (actions for later weeks/months)\n\nRules:\n- Each item must be short and action-focused.\n- Immediate Steps: exactly 3 bullets.\n- Follow-up Steps: 3 to 5 bullets.\n- No medical jargon.\n- Do not repeat items.\n- Do not include headings, only bullets.\n\nMedical info:\n"
    ++ full_mdt_report ++ "\n"

/-- `main.py`, `generate_patient_summary(full_mdt_report)`: one direct
`client.models.generate_content` call (no try/except, no retry) followed
by `response.text.strip()`.  The call oracle returns `Except.error e` when
the underlying call raises; the raise propagates out unchanged. -/
def generate_patient_summary (call : String → Except String String)
    (full_mdt_report : String) : Except String String :=
  match call (patientSummaryPrompt full_mdt_report) with
  | .error e => .error e
  | .ok t => .ok (pyStrip t)

/-- `main.py`, `generate_steps_split(full_mdt_report)`: one direct
`client.models.generate_content` call (no try/except, no retry) followed
by the pure line-bucketing parse.  A raise propagates out unchanged. -/
def generate_steps_split (call : String → Except String String)
    (full_mdt_report : String) : Except String (List String × List String) :=
  match call (stepsPrompt full_mdt_report) with
  | .error e => .error e
  | .ok t => .ok (generate_steps_split_parse t)

/-- The follow-up backfill in `run_multi_agent_analysis`:
`summary_lines = [l.strip("-•* ").strip() for l in patient_summary.split("\n") if l.strip()]`
then `summary_lines[3:6]`. -/
def backfillFollowups (patient_summary : String) : List String :=
  let lines := splitLinesChars patient_summary.toList
  let kept := lines.filter fun l => !(trimChars l).isEmpty
  let cleaned := kept.map fun l =>
    trimChars (((l.dropWhile (['-', '•', '*', ' '].contains ·)).reverse.dropWhile
      (['-', '•', '*', ' '].contains ·)).reverse)
  ((cleaned.drop 3).take 3).map ofChars

/-- Environment of one pipeline invocation: the document text as loaded
(`none` models a read failure), the base file name, the per-role task
outcomes, the `MultidisciplinaryTeam(...).run()` result as a function of
the three collected reports (`Agent.run` always returns a string), the two
raw derived-view call oracles (which may raise), and the initial cache and
results-directory contents. -/
structure Env where
  medical_report : Option String
  base_filename : String
  specialist : Role → TaskOutcome
  mdt : String → String → String → String
  summaryCall : String → Except String String
  stepsCall : String → Except String String
  cache0 : List (String × Payload)
  store0 : List (String × String)

/-- Ghost instrumentation: which stages ran during a pipeline invocation. -/
structure Trace where
  firstCacheLookup : Bool
  synthesisCalled : Bool
  secondCacheLookup : Bool
  summaryCalled : Bool
  stepsCalled : Bool
deriving DecidableEq

/-- Observable outcome of one pipeline invocation: the returned value
(`Except.error e` models an uncaught exception escaping
`run_multi_agent_analysis`; `Except.ok none` is a `return None`), the
stage trace, the cache writes performed (in order), and the final results
directory. -/
structure PipeOut where
  outcome : Except String (Option Payload)
  trace : Trace
  cacheWrites : List (String × Payload)
  store : List (String × String)

/-- Collected `cardiologist_report` (`specialist_outputs.get("cardiologist", "")`). -/
def cardOf (env : Env) : String := collectSpecialists env.specialist .cardiologist

/-- Collected `psychologist_report`. -/
def psyOf (env : Env) : String := collectSpecialists env.specialist .psychologist

/-- Collected `pulmonologist_report`. -/
def pulOf (env : Env) : String := collectSpecialists env.specialist .pulmonologist

/-- The specialist error gate of `run_multi_agent_analysis`:
`looks_like_error(cardiologist_report) or ... or looks_like_error(pulmonologist_report)`. -/
def anyErrOf (env : Env) : Bool :=
  looks_like_error (cardOf env) || looks_like_error (psyOf env) ||
    looks_like_error (pulOf env)

/-- The first cache-fallback attempt: performed only when a specialist
result is error-shaped; yields the cached payload when one exists whose
patient report is not error-shaped. -/
def firstCached (env : Env) : Option Payload :=
  if anyErrOf env then
    match load_cache env.cache0 env.base_filename with
    | some cached =>
      if looks_like_error cached.patient_report then none else some cached
    | none => none
  else none

/-- `MultidisciplinaryTeam(...).run()` on the three collected reports. -/
def mdtOf (env : Env) : String := env.mdt (cardOf env) (psyOf env) (pulOf env)

/-- `main.py`, `run_multi_agent_analysis(input_medical_report_path)`,
faithful to the final revision of the pipeline: load the document (abort
on a falsy read), run the three specialist tasks and collect every result,
fall back to the cache when a specialist result is error-shaped, otherwise
(or when no usable cache entry exists) run synthesis, fall back to the
cache again when the synthesis output is error-shaped (returning `None`
when that lookup also fails), then derive the patient summary and action
steps (direct calls; a raise escapes), backfill an empty follow-up list
from the summary, persist artifacts, and cache the payload only when its
patient report is not error-shaped (then rerun the rebuild routine). -/
def run_multi_agent_analysis (env : Env) : PipeOut :=
  if (env.medical_report.getD "").toList.isEmpty then
    ⟨.ok none, ⟨false, false, false, false, false⟩, [], env.store0⟩
  else
    let base := env.base_filename
    let store1 := specialistStoreWrites base env.specialist ++ env.store0
    match firstCached env with
    | some cached =>
      ⟨.ok (some cached), ⟨anyErrOf env, false, false, false, false⟩, [], store1⟩
    | none =>
      let mdt := mdtOf env
      if mdt.toList.isEmpty || looks_like_error mdt then
        match load_cache env.cache0 base with
        | some cached =>
          if looks_like_error cached.patient_report then
            ⟨.ok none, ⟨anyErrOf env, true, true, false, false⟩, [], store1⟩
          else
            ⟨.ok (some cached), ⟨anyErrOf env, true, true, false, false⟩, [], store1⟩
        | none => ⟨.ok none, ⟨anyErrOf env, true, true, false, false⟩, [], store1⟩
      else
        let internal_filename := stripTxt base ++ "_internal_mdt_report.txt"
        let store2 :=
          (internal_filename,
            reportFileBody "Multidisciplinary Team Report (Internal)" mdt) :: store1
        match generate_patient_summary env.summaryCall mdt with
        | .error e => ⟨.error e, ⟨anyErrOf env, true, false, true, false⟩, [], store2⟩
        | .ok patient_summary =>
          match generate_steps_split env.stepsCall mdt with
          | .error e => ⟨.error e, ⟨anyErrOf env, true, false, true, true⟩, [], store2⟩
          | .ok (immediate_steps, followup0) =>
            let followup_steps :=
              if followup0.isEmpty then backfillFollowups patient_summary
              else followup0
            let patient_filename := stripTxt base ++ "_patient_summary.txt"
            let store3 :=
              (patient_filename,
                reportFileBody "Patient Summary (Frontend)" patient_summary) :: store2
            let payload : Payload :=
              { final_report_path := "results/" ++ patient_filename
                raw_mdt_report_path := "results/" ++ internal_filename
                raw_mdt_report := mdt
                patient_report := patient_summary
                immediate_steps := immediate_steps
                followup_steps := followup_steps
                cardiologist_report := cardOf env
                pulmonologist_report := pulOf env
                psychologist_report := psyOf env }
            if looks_like_error payload.patient_report then
              ⟨.ok (some payload), ⟨anyErrOf env, true, false, true, true⟩, [], store3⟩
            else
              ⟨.ok (some payload), ⟨anyErrOf env, true, false, true, true⟩,
                (base, payload) :: rebuild_cache_from_results store3, store3⟩

/-- A known-good cached payload for the concrete test environments. -/
def cachedPayloadSample : Payload :=
  { final_report_path := "results/case_patient_summary.txt"
    raw_mdt_report_path := "results/case_internal_mdt_report.txt"
    raw_mdt_report := "previous synthesis"
    patient_report := "A clear previous summary."
    immediate_steps := ["one"]
    followup_steps := ["two"]
    cardiologist_report := "fine"
    pulmonologist_report := "fine"
    psychologist_report := "fine" }

/-- Concrete environment: every specialist task raises and a usable cache
entry exists for the document. -/
def envCachedFallback : Env :=
  { medical_report := some "patient file contents"
    base_filename := "case.txt"
    specialist := fun _ => TaskOutcome.exn "quota exhausted"
    mdt := fun _ _ _ => "fresh synthesis"
    summaryCall := fun _ => Except.ok "A fresh summary."
    stepsCall := fun _ => Except.ok "- step"
    cache0 := [(cache_path_for "case.txt", cachedPayloadSample)]
    store0 := [] }

/-- Concrete environment: clean specialists, an error-shaped synthesis
output, and a usable cache entry (simulated synthesis failure after a
prior successful cached run). -/
def envSynthFail : Env :=
  { medical_report := some "patient file contents"
    base_filename := "case.txt"
    specialist := fun _ => TaskOutcome.ok "clean specialist findings"
    mdt := fun _ _ _ => "Error: 503 UNAVAILABLE"
    summaryCall := fun _ => Except.ok "never used"
    stepsCall := fun _ => Except.ok "never used"
    cache0 := [(cache_path_for "case.txt", cachedPayloadSample)]
    store0 := [] }

/-- Concrete environment: a healthy run up to the derived views, whose
patient-summary call raises. -/
def envSummaryRaises : Env :=
  { medical_report := some "patient file contents"
    base_filename := "case.txt"
    specialist := fun _ => TaskOutcome.ok "clean specialist findings"
    mdt := fun _ _ _ => "solid synthesis"
    summaryCall := fun _ => Except.error "503 UNAVAILABLE boom"
    stepsCall := fun _ => Except.ok "never used"
    cache0 := []
    store0 := [] }

/-- Concrete environment: a fully successful run ending in a cache write. -/
def envFullRun : Env :=
  { medical_report := some "patient file contents"
    base_filename := "case.txt"
    specialist := fun _ => TaskOutcome.ok "clean specialist findings"
    mdt := fun _ _ _ => "solid synthesis"
    summaryCall := fun _ => Except.ok "A clear summary."
    stepsCall := fun _ => Except.ok "- take rest\n- drink water"
    cache0 := []
    store0 := [] }

/-- The payload produced by `envFullRun`. -/
def payloadFullRun : Payload :=
  { final_report_path := "results/case_patient_summary.txt"
    raw_mdt_report_path := "results/case_internal_mdt_report.txt"
    raw_mdt_report := "solid synthesis"
    patient_report := "A clear summary."
    immediate_steps := ["take rest", "drink water"]
    followup_steps := []
    cardiologist_report := "clean specialist findings"
    pulmonologist_report := "clean specialist findings"
    psychologist_report := "clean specialist findings" }

-- ### Theorems: basic text machinery

theorem startsWithChars_iff (s pat : List Char) :
    startsWithChars s pat = true ↔ ∃ t, s = pat ++ t := by
  induction pat generalizing s with
  | nil => simp [startsWithChars]
  | cons p ps ih =>
    cases s with
    | nil => simp [startsWithChars]
    | cons c rest =>
      simp only [startsWithChars, Bool.and_eq_true, decide_eq_true_eq, ih]
      constructor
      · rintro ⟨rfl, t, rfl⟩
        exact ⟨t, rfl⟩
      · rintro ⟨t, h⟩
        injection h with h1 h2
        exact ⟨h1, t, h2⟩

theorem containsSub_iff (s pat : List Char) :
    containsSub s pat = true ↔ Occurs pat s := by
  induction s with
  | nil =>
    simp only [containsSub, List.isEmpty_iff, Occurs]
    constructor
    · rintro rfl
      exact ⟨[], [], rfl⟩
    · rintro ⟨u, v, h⟩
      rcases List.append_eq_nil.mp h.symm with ⟨h1, h2⟩
      exact (List.append_eq_nil.mp h1).2
  | cons c rest ih =>
    simp only [containsSub, Bool.or_eq_true, startsWithChars_iff, ih, Occurs]
    constructor
    · rintro (⟨t, h⟩ | ⟨u, v, h⟩)
      · exact ⟨[], t, by simpa using h⟩
      · exact ⟨c :: u, v, by simp [h]⟩
    · rintro ⟨u, v, h⟩
      cases u with
      | nil => exact Or.inl ⟨v, by simpa using h⟩
      | cons x u' =>
        injection h with h1 h2
        exact Or.inr ⟨u', v, h2⟩

theorem string_eq_empty_iff (s : String) : s = "" ↔ s.toList = [] := by
  constructor
  · intro h
    subst h
    rfl
  · intro h
    cases s with
    | mk data =>
      simp only [String.toList] at h
      subst h
      rfl

/-- C1: the error-classification predicate `looks_like_error` returns true
iff the text is empty or its lowercase form contains one of the fixed
substrings "unable to", "error", "cannot", "quota"; in particular it is
true on the empty string and on any text containing "quota exceeded", and
false on a well-formed multi-sentence clinical report. -/
theorem looks_like_error_correct :
    (∀ text : String, looks_like_error text = true ↔ isErrorShapedSpec text) ∧
    looks_like_error "" = true ∧
    (∀ text : String,
      Occurs "quota exceeded".toList text.toList → looks_like_error text = true) ∧
    looks_like_error clinicalReportSample = false := by
  refine ⟨?_, by decide, ?_, by decide⟩
  · intro text
    unfold looks_like_error isErrorShapedSpec
    by_cases h : text.toList.isEmpty = true
    · have : text = "" := (string_eq_empty_iff text).mpr (List.isEmpty_iff.mp h)
      simp [h, this]
    · have hne : ¬ text = "" := by
        intro e
        rw [(string_eq_empty_iff text).mp e] at h
        exact h rfl
      rw [Bool.not_eq_true] at h
      simp only [h, Bool.false_eq_true, if_false, Bool.or_eq_true, containsSub_iff]
      tauto
  · intro text ⟨u, v, hf⟩
    have hsplit : ("quota exceeded".toList : List Char) =
        "quota".toList ++ " exceeded".toList := by decide
    have hlow : pyLower text.toList =
        pyLower u ++ "quota exceeded".toList ++ pyLower v := by
      have hq : pyLower "quota exceeded".toList = "quota exceeded".toList := by decide
      simp only [pyLower] at hq ⊢
      rw [hf]
      simp [hq]
    have hocc : Occurs "quota".toList (pyLower text.toList) := by
      refine ⟨pyLower u, " exceeded".toList ++ pyLower v, ?_⟩
      rw [hlow, hsplit]
      simp [List.append_assoc]
    have hnonempty : text.toList.isEmpty = false := by
      rw [Bool.eq_false_iff]
      intro he
      have h0 : text.toList = [] := List.isEmpty_iff.mp he
      rw [h0] at hf
      have h1 := List.append_eq_nil.mp hf.symm
      have h2 := List.append_eq_nil.mp h1.1
      simp at h2
    unfold looks_like_error
    simp only [hnonempty, Bool.false_eq_true, if_false, Bool.or_eq_true]
    exact Or.inr ((containsSub_iff _ _).mpr hocc)

/-- Witness for C1: concrete instantiation of the "contains quota exceeded"
hypothesis. -/
theorem looks_like_error_correct_witness :
    looks_like_error "Request failed: quota exceeded for the day" = true :=
  looks_like_error_correct.2.2.1 "Request failed: quota exceeded for the day"
    ⟨"Request failed: ".toList, " for the day".toList, by decide⟩

-- ### Theorems: Model Client Adapter retry policy (Agent.run)

theorem agentRun_eq (f : Nat → Outcome) :
    agentRun f =
      match f 0 with
      | .success t => ⟨t, 1, []⟩
      | .otherError m => ⟨"Error: " ++ m, 1, []⟩
      | .apiError m =>
        if is503 m then
          match f 1 with
          | .success t => ⟨t, 2, [RETRY_DELAY_SECONDS]⟩
          | .otherError m1 => ⟨"Error: " ++ m1, 2, [RETRY_DELAY_SECONDS]⟩
          | .apiError m1 =>
            if is503 m1 then
              match f 2 with
              | .success t => ⟨t, 3, [RETRY_DELAY_SECONDS, RETRY_DELAY_SECONDS]⟩
              | .otherError m2 =>
                ⟨"Error: " ++ m2, 3, [RETRY_DELAY_SECONDS, RETRY_DELAY_SECONDS]⟩
              | .apiError m2 =>
                ⟨"Error: " ++ m2, 3, [RETRY_DELAY_SECONDS, RETRY_DELAY_SECONDS]⟩
            else ⟨"Error: " ++ m1, 2, [RETRY_DELAY_SECONDS]⟩
        else ⟨"Error: " ++ m, 1, []⟩ := by
  rcases h0 : f 0 with t0 | m0 | m0
  · simp [agentRun, agentRunAux, h0]
  · rcases hs0 : is503 m0 with _ | _
    · simp [agentRun, agentRunAux, h0, hs0]
    · rcases h1 : f 1 with t1 | m1 | m1
      · simp [agentRun, agentRunAux, h0, hs0, h1, MAX_RETRIES]
      · rcases hs1 : is503 m1 with _ | _
        · simp [agentRun, agentRunAux, h0, hs0, h1, hs1, MAX_RETRIES]
        · rcases h2 : f 2 with t2 | m2 | m2 <;>
            simp [agentRun, agentRunAux, h0, hs0, h1, hs1, h2, MAX_RETRIES]
      · simp [agentRun, agentRunAux, h0, hs0, h1, MAX_RETRIES]
  · simp [agentRun, agentRunAux, h0]

/-- C3: the adapter call retries only the 503-class (service-unavailable)
failure, makes at most `MAX_RETRIES = 3` attempts, sleeps the fixed
`RETRY_DELAY_SECONDS = 15` before each resubmission, returns an immediate
error marker carrying the cause for every non-transient failure, and on
exhausting retries returns an error marker (the model has no raised-fault
result: `agentRun` always yields a `RunOut`). -/
theorem agent_run_retry_policy :
    (∀ f, (agentRun f).attemptsMade ≤ MAX_RETRIES) ∧
    (∀ f, (agentRun f).delays =
      List.replicate ((agentRun f).attemptsMade - 1) RETRY_DELAY_SECONDS) ∧
    (∀ f k, k + 1 < (agentRun f).attemptsMade →
      ∃ m, f k = .apiError m ∧ is503 m = true) ∧
    (∀ f m, (f 0 = .otherError m ∨ (f 0 = .apiError m ∧ is503 m = false)) →
      agentRun f = ⟨"Error: " ++ m, 1, []⟩) ∧
    (∀ f, (∀ k, k < MAX_RETRIES → ∃ m, f k = .apiError m ∧ is503 m = true) →
      (agentRun f).attemptsMade = MAX_RETRIES ∧
      ∃ m, f (MAX_RETRIES - 1) = .apiError m ∧
        (agentRun f).result = "Error: " ++ m) := by
  refine ⟨?_, ?_, ?_, ?_, ?_⟩
  · intro f
    rw [agentRun_eq f]
    rcases h0 : f 0 with t0 | m0 | m0 <;> simp [MAX_RETRIES]
    rcases hs0 : is503 m0 with _ | _ <;> simp
    rcases h1 : f 1 with t1 | m1 | m1 <;> simp
    rcases hs1 : is503 m1 with _ | _ <;> simp
    rcases h2 : f 2 with t2 | m2 | m2 <;> simp
  · intro f
    rw [agentRun_eq f]
    rcases h0 : f 0 with t0 | m0 | m0 <;> simp
    rcases hs0 : is503 m0 with _ | _ <;> simp
    rcases h1 : f 1 with t1 | m1 | m1 <;> simp [List.replicate]
    rcases hs1 : is503 m1 with _ | _ <;> simp [List.replicate]
    rcases h2 : f 2 with t2 | m2 | m2 <;> simp [List.replicate]
  · intro f k
    rw [agentRun_eq f]
    rcases h0 : f 0 with t0 | m0 | m0
    · simp only [h0]
      exact fun hk => absurd hk (by omega)
    · rcases hs0 : is503 m0 with _ | _
      · simp only [h0, hs0, Bool.false_eq_true, if_false]
        exact fun hk => absurd hk (by omega)
      · rcases h1 : f 1 with t1 | m1 | m1
        · simp only [h0, hs0, if_true, h1]
          intro hk
          have hke : k = 0 := by omega
          subst hke
          exact ⟨m0, h0, hs0⟩
        · rcases hs1 : is503 m1 with _ | _
          · simp only [h0, hs0, if_true, h1, hs1, Bool.false_eq_true, if_false]
            intro hk
            have hke : k = 0 := by omega
            subst hke
            exact ⟨m0, h0, hs0⟩
          · rcases h2 : f 2 with t2 | m2 | m2 <;>
              · simp only [h0, hs0, if_true, h1, hs1, h2]
                intro hk
                rcases (by omega : k = 0 ∨ k = 1) with hke | hke <;> subst hke
                · exact ⟨m0, h0, hs0⟩
                · exact ⟨m1, h1, hs1⟩
        · simp only [h0, hs0, if_true, h1]
          intro hk
          have hke : k = 0 := by omega
          subst hke
          exact ⟨m0, h0, hs0⟩
    · simp only [h0]
      exact fun hk => absurd hk (by omega)
  · intro f m hm
    rw [agentRun_eq f]
    rcases hm with h0 | ⟨h0, hs0⟩ <;> simp [h0]
    simp [hs0]
  · intro f hall
    obtain ⟨m0, h0, hs0⟩ := hall 0 (by decide)
    obtain ⟨m1, h1, hs1⟩ := hall 1 (by decide)
    obtain ⟨m2, h2, hs2⟩ := hall 2 (by decide)
    rw [agentRun_eq f]
    refine ⟨?_, m2, ?_, ?_⟩ <;> simp [h0, hs0, h1, hs1, h2, MAX_RETRIES]

/-- Witness for C3: a permanently failing stream is never retried, and an
always-503 stream is retried to the ceiling and then degrades to a marker. -/
theorem agent_run_retry_policy_witness :
    agentRun (fun _ => Outcome.apiError "403 PERMISSION_DENIED") =
      ⟨"Error: 403 PERMISSION_DENIED", 1, []⟩ ∧
    (agentRun (fun _ => Outcome.apiError "503 UNAVAILABLE")).attemptsMade = MAX_RETRIES ∧
    ∃ m, (fun _ => Outcome.apiError "503 UNAVAILABLE") (MAX_RETRIES - 1) =
        Outcome.apiError m ∧
      (agentRun (fun _ => Outcome.apiError "503 UNAVAILABLE")).result = "Error: " ++ m := by
  refine ⟨?_, ?_⟩
  · exact agent_run_retry_policy.2.2.2.1 (fun _ => Outcome.apiError "403 PERMISSION_DENIED")
      "403 PERMISSION_DENIED" (Or.inr ⟨rfl, by decide⟩)
  · exact agent_run_retry_policy.2.2.2.2 (fun _ => Outcome.apiError "503 UNAVAILABLE")
      (fun k _ => ⟨"503 UNAVAILABLE", rfl, by decide⟩)

-- ### Theorems: specialist fan-out (C4)

/-- C4: the collected specialist map always has exactly one entry per fixed
role (no role is silently dropped), each entry depends only on its own
task outcome, and replacing one role task by a raised exception leaves
the other two results unchanged. -/
theorem specialist_fanout_total :
    (∀ outcomes r,
      (specialistMap outcomes).countP (fun p => decide (p.1 = r)) = 1) ∧
    (∀ o o' r, o r = o' r → collectSpecialists o r = collectSpecialists o' r) ∧
    (∀ (o : Role → TaskOutcome) r e r', r' ≠ r →
      collectSpecialists (fun x => if x = r then TaskOutcome.exn e else o x) r' =
        collectSpecialists o r') := by
  refine ⟨?_, ?_, ?_⟩
  · intro outcomes r
    cases r <;> rfl
  · intro o o' r h
    unfold collectSpecialists
    rw [h]
  · intro o r e r' h
    unfold collectSpecialists
    simp [if_neg h]

/-- Witness for C4: one crashed specialist leaves the other roles intact. -/
theorem specialist_fanout_total_witness :
    collectSpecialists
        (fun x => if x = Role.cardiologist then TaskOutcome.exn "boom"
          else (fun _ => TaskOutcome.ok "fine report") x)
        Role.psychologist =
      collectSpecialists (fun _ => TaskOutcome.ok "fine report") Role.psychologist :=
  specialist_fanout_total.2.2 (fun _ => TaskOutcome.ok "fine report")
    Role.cardiologist "boom" Role.psychologist (by decide)

-- ### Theorems: action-step derivation (C5)

/-- C5 counterexample: the claim says the immediate-step list always has
exactly length 3, but on the empty response text the derivation returns an
empty immediate list. -/
theorem generate_steps_split_not_exactly_three :
    ¬ ((generate_steps_split_parse "").1.length = 3) := by decide

set_option maxRecDepth 20000 in
/-- C5 (amended): the derivation truncates the immediate list to at most 3
entries and the follow-up list to at most 5 entries; on the fixed 6-bullet
structured input (3 bullets under an "Immediate" marker, 3 under a
"Follow-up" marker) it returns exactly 3 and 3, in the original order,
with the leading bullet-prefix characters stripped. -/
theorem generate_steps_split_bounds :
    (∀ t : String, (generate_steps_split_parse t).1.length ≤ 3 ∧
      (generate_steps_split_parse t).2.length ≤ 5) ∧
    generate_steps_split_parse sixBulletSample =
      (["Take the prescribed medication", "Rest at home", "Drink plenty of water"],
       ["Visit the clinic in two weeks", "Repeat the blood test",
        "Review results with your doctor"]) := by
  constructor
  · intro t
    unfold generate_steps_split_parse
    constructor
    · simp [List.length_take]
    · simp [List.length_take]
  · decide

-- ### Theorems: auxiliary string and occurrence lemmas

theorem string_toList_append (a b : String) :
    (a ++ b).toList = a.toList ++ b.toList := by
  cases a
  cases b
  rfl

theorem ofChars_toList (s : String) : ofChars s.toList = s := by
  cases s
  rfl

theorem occurs_cons {pat rest : List Char} (c : Char) :
    Occurs pat rest → Occurs pat (c :: rest) := by
  rintro ⟨u, v, rfl⟩
  exact ⟨c :: u, v, rfl⟩

theorem not_occurs_of_containsSub_false {s pat : List Char}
    (h : containsSub s pat = false) : ¬ Occurs pat s := by
  intro ho
  rw [(containsSub_iff s pat).mpr ho] at h
  simp at h

-- ### Theorems: cache round trip (C9)

/-- C9: saving a payload under a key and then loading the same key returns
the payload unchanged in all fields (`save_cache` and `load_cache` derive
the same path with `cache_path_for`; the JSON round trip is modelled as
exact value storage). -/
theorem save_load_roundtrip :
    ∀ (fs : List (String × Payload)) (key : String) (payload : Payload),
      load_cache (save_cache fs key payload) key = some payload := by
  intro fs key payload
  simp [load_cache, save_cache, fsFind]

-- ### Theorems: pipeline cache fallback (C2)

/-- C2: (i) when a specialist result is error-shaped and the cache holds a
usable (non-error) payload for the document, the pipeline returns that
cached payload unchanged, with synthesis, the derived-view calls and the
cache write all skipped; (ii) when a specialist result is error-shaped but
no usable cache entry exists, synthesis still runs; (iii) when the
synthesis output is error-shaped, a second cache lookup is made, returning
the usable cached payload when one exists and (iv) `None` otherwise. -/
theorem pipeline_cache_fallback :
    (∀ env cached, (env.medical_report.getD "").toList.isEmpty = false →
      anyErrOf env = true →
      load_cache env.cache0 env.base_filename = some cached →
      looks_like_error cached.patient_report = false →
      (run_multi_agent_analysis env).outcome = .ok (some cached) ∧
      (run_multi_agent_analysis env).trace = ⟨true, false, false, false, false⟩ ∧
      (run_multi_agent_analysis env).cacheWrites = []) ∧
    (∀ env, (env.medical_report.getD "").toList.isEmpty = false →
      anyErrOf env = true →
      firstCached env = none →
      (run_multi_agent_analysis env).trace.synthesisCalled = true) ∧
    (∀ env cached, (env.medical_report.getD "").toList.isEmpty = false →
      firstCached env = none →
      ((mdtOf env).toList.isEmpty || looks_like_error (mdtOf env)) = true →
      load_cache env.cache0 env.base_filename = some cached →
      looks_like_error cached.patient_report = false →
      (run_multi_agent_analysis env).outcome = .ok (some cached) ∧
      (run_multi_agent_analysis env).trace.secondCacheLookup = true) ∧
    (∀ env, (env.medical_report.getD "").toList.isEmpty = false →
      firstCached env = none →
      ((mdtOf env).toList.isEmpty || looks_like_error (mdtOf env)) = true →
      (load_cache env.cache0 env.base_filename = none ∨
        ∃ cached, load_cache env.cache0 env.base_filename = some cached ∧
          looks_like_error cached.patient_report = true) →
      (run_multi_agent_analysis env).outcome = .ok none ∧
      (run_multi_agent_analysis env).trace.secondCacheLookup = true) := by
  refine ⟨?_, ?_, ?_, ?_⟩
  · intro env cached h1 h2 h3 h4
    have hfc : firstCached env = some cached := by
      simp [firstCached, h2, h3, h4]
    unfold run_multi_agent_analysis
    rw [h1]
    simp [hfc, h2]
  · intro env h1 h2 hfc
    unfold run_multi_agent_analysis
    rw [h1]
    simp only [Bool.false_eq_true, if_false, hfc]
    cases hm : ((mdtOf env).toList.isEmpty || looks_like_error (mdtOf env))
    · simp only [hm, Bool.false_eq_true, if_false]
      cases hsum : generate_patient_summary env.summaryCall (mdtOf env) with
      | error e => simp [hsum]
      | ok ps =>
        cases hst : generate_steps_split env.stepsCall (mdtOf env) with
        | error e => simp [hsum, hst]
        | ok pr =>
          rcases pr with ⟨a, b⟩
          simp only [hsum, hst]
          cases hg : looks_like_error ps <;> simp [hg]
    · simp only [hm, if_true]
      cases hl : load_cache env.cache0 env.base_filename with
      | none => simp [hl]
      | some c =>
        simp only [hl]
        cases hc : looks_like_error c.patient_report <;> simp [hc]
  · intro env cached h1 hfc hm h3 h4
    unfold run_multi_agent_analysis
    rw [h1]
    simp only [Bool.false_eq_true, if_false, hfc]
    rw [hm]
    simp only [if_true, h3, h4, Bool.false_eq_true, if_false]
    constructor <;> trivial
  · intro env h1 hfc hm hl
    unfold run_multi_agent_analysis
    rw [h1]
    simp only [Bool.false_eq_true, if_false, hfc]
    rw [hm]
    rcases hl with hl | ⟨cached, hl, hc⟩
    · simp only [if_true, hl]
      constructor <;> trivial
    · simp only [if_true, hl, hc, if_true]
      constructor <;> trivial

/-- Witness for C2: concrete cached-fallback runs.  With every specialist
task raising and a usable cache entry, the cached payload is returned
unchanged with no downstream calls; with clean specialists, an
error-shaped synthesis output and a usable cache entry, the second lookup
returns the cached payload. -/
theorem pipeline_cache_fallback_witness :
    ((run_multi_agent_analysis envCachedFallback).outcome =
        .ok (some cachedPayloadSample) ∧
      (run_multi_agent_analysis envCachedFallback).trace =
        ⟨true, false, false, false, false⟩ ∧
      (run_multi_agent_analysis envCachedFallback).cacheWrites = []) ∧
    ((run_multi_agent_analysis envSynthFail).outcome =
        .ok (some cachedPayloadSample) ∧
      (run_multi_agent_analysis envSynthFail).trace.secondCacheLookup = true) := by
  constructor
  · exact pipeline_cache_fallback.1 envCachedFallback cachedPayloadSample
      (by decide) (by decide) (by decide) (by decide)
  · exact pipeline_cache_fallback.2.2.1 envSynthFail cachedPayloadSample
      (by decide) (by decide) (by decide) (by decide) (by decide)

-- ### Theorems: cache write gate (C7)

theorem rebuild_writes_not_error (store : List (String × String)) (k : String)
    (p : Payload) (hmem : (k, p) ∈ rebuild_cache_from_results store) :
    looks_like_error p.patient_report = false := by
  unfold rebuild_cache_from_results at hmem
  rw [List.mem_filterMap] at hmem
  obtain ⟨base, _, hbase⟩ := hmem
  by_cases h : looks_like_error (rebuildEntry store base).patient_report = true
  · simp [h] at hbase
  · rw [Bool.not_eq_true] at h
    simp only [h, Bool.false_eq_true, if_false, Option.some.injEq, Prod.mk.injEq] at hbase
    rw [← hbase.2]
    exact h

theorem run_cacheWrites_cases (env : Env) :
    (run_multi_agent_analysis env).cacheWrites = [] ∨
    ∃ p store, looks_like_error p.patient_report = false ∧
      (run_multi_agent_analysis env).cacheWrites =
        (env.base_filename, p) :: rebuild_cache_from_results store := by
  simp only [run_multi_agent_analysis]
  split
  · exact Or.inl rfl
  · split
    · exact Or.inl rfl
    · split
      · split
        · split
          · exact Or.inl rfl
          · exact Or.inl rfl
        · exact Or.inl rfl
      · split
        · exact Or.inl rfl
        · split
          · exact Or.inl rfl
          · split
            · exact Or.inl rfl
            · rename_i hcond
              rw [Bool.not_eq_true] at hcond
              exact Or.inr ⟨_, _, hcond, rfl⟩

/-- C7: the cache never stores a degraded result.  Every cache write
performed by a pipeline run (the end-of-run `save_cache` and every write
of the rebuild routine it triggers) carries a payload whose patient report
is not error-shaped, and the reconciliation routine applies the same
error-shaped check to each regrouped entry before storing it. -/
theorem cache_writes_never_error_shaped :
    (∀ env k p, (k, p) ∈ (run_multi_agent_analysis env).cacheWrites →
      looks_like_error p.patient_report = false) ∧
    (∀ store k p, (k, p) ∈ rebuild_cache_from_results store →
      looks_like_error p.patient_report = false) := by
  constructor
  · intro env k p hmem
    rcases run_cacheWrites_cases env with h | ⟨q, store, hq, h⟩
    · rw [h] at hmem
      simp at hmem
    · rw [h] at hmem
      rcases List.mem_cons.mp hmem with he | hmem2
      · have hp : p = q := congrArg Prod.snd he
        rw [hp]
        exact hq
      · exact rebuild_writes_not_error store k p hmem2
  · intro store k p
    exact rebuild_writes_not_error store k p

set_option maxRecDepth 40000 in
/-- Witness for C7: the payload cached by the concrete successful run has
a non-error-shaped patient report. -/
theorem cache_writes_never_error_shaped_witness :
    looks_like_error payloadFullRun.patient_report = false :=
  cache_writes_never_error_shaped.1 envFullRun "case.txt" payloadFullRun (by decide)

-- ### Theorems: derived-views failure behaviour (C6)

/-- C6 counterexample: the claim says a failure in the two Derived-Views
calls produces an error-marker result rather than a raised fault, but both
`generate_patient_summary` and `generate_steps_split` invoke the model
service directly with no try/except and no retry: when the underlying
call raises, they return the propagated exception (`Except.error`), not an
error-marker text. -/
theorem generate_patient_summary_raises :
    generate_patient_summary (fun _ => Except.error "boom") "report" =
      Except.error "boom" ∧
    generate_steps_split (fun _ => Except.error "boom") "report" =
      Except.error "boom" := ⟨rfl, rfl⟩

/-- C6 (amended): the two Derived-Views calls are NOT routed through the
Model Client Adapter; they call the service directly, and a raised failure
in either call propagates unchanged out of the function and out of
`run_multi_agent_analysis` to its caller. -/
theorem derived_views_propagate_failure :
    (∀ call mdt e, call (patientSummaryPrompt mdt) = Except.error e →
      generate_patient_summary call mdt = Except.error e) ∧
    (∀ call mdt e, call (stepsPrompt mdt) = Except.error e →
      generate_steps_split call mdt = Except.error e) ∧
    (∀ env e, (env.medical_report.getD "").toList.isEmpty = false →
      firstCached env = none →
      ((mdtOf env).toList.isEmpty || looks_like_error (mdtOf env)) = false →
      generate_patient_summary env.summaryCall (mdtOf env) = Except.error e →
      (run_multi_agent_analysis env).outcome = Except.error e) := by
  refine ⟨?_, ?_, ?_⟩
  · intro call mdt e h
    unfold generate_patient_summary
    rw [h]
  · intro call mdt e h
    unfold generate_steps_split
    rw [h]
  · intro env e h1 hfc hm hsum
    unfold run_multi_agent_analysis
    rw [h1]
    simp only [Bool.false_eq_true, if_false, hfc]
    rw [hm]
    simp only [Bool.false_eq_true, if_false, hsum]

/-- Witness for C6: the concrete environment whose patient-summary call
raises makes the whole pipeline invocation end in the propagated
exception. -/
theorem derived_views_propagate_failure_witness :
    (run_multi_agent_analysis envSummaryRaises).outcome =
      Except.error "503 UNAVAILABLE boom" :=
  derived_views_propagate_failure.2.2 envSummaryRaises "503 UNAVAILABLE boom"
    (by decide) (by decide) (by decide) rfl

-- ### Theorems: failure results are error-shaped (C10)

theorem looks_like_error_error_head (s : String) (l : List Char)
    (h : s.toList = "Error".toList ++ l) : looks_like_error s = true := by
  unfold looks_like_error
  have hne : s.toList.isEmpty = false := by
    rw [h]
    rfl
  simp only [hne, Bool.false_eq_true, if_false, Bool.or_eq_true]
  refine Or.inl (Or.inl (Or.inr ?_))
  refine (containsSub_iff _ _).mpr ⟨[], pyLower l, ?_⟩
  rw [h]
  simp only [pyLower, List.map_append, List.nil_append]
  have hlow : List.map Char.toLower "Error".toList = "error".toList := by decide
  rw [hlow]

/-- C10: every failure-produced result is classified error-shaped by
`looks_like_error`: an adapter error marker `"Error: " ++ m` is always
error-shaped; the result recorded when a specialist task raises has
exactly the form `"Error generating <role> report: <cause>"` and is
error-shaped; and every result of the adapter call is either the verbatim
success text of one attempt or a text starting with `"Error:"` (hence
error-shaped), so a specialist hard failure always triggers the
downstream error gate. -/
theorem failure_results_are_error_shaped :
    (∀ m : String, looks_like_error ("Error: " ++ m) = true) ∧
    (∀ (o : Role → TaskOutcome) r e, o r = TaskOutcome.exn e →
      collectSpecialists o r =
        "Error generating " ++ roleName r ++ " report: " ++ e ∧
      looks_like_error (collectSpecialists o r) = true) ∧
    (∀ f, (∃ k, k < MAX_RETRIES ∧ f k = Outcome.success ((agentRun f).result)) ∨
      (∃ m : String, (agentRun f).result = "Error: " ++ m)) := by
  refine ⟨?_, ?_, ?_⟩
  · intro m
    apply looks_like_error_error_head _ (':' :: ' ' :: m.toList)
    rw [string_toList_append]
    rfl
  · intro o r e h
    have hc : collectSpecialists o r =
        "Error generating " ++ roleName r ++ " report: " ++ e := by
      unfold collectSpecialists
      rw [h]
    refine ⟨hc, ?_⟩
    rw [hc]
    apply looks_like_error_error_head _
      (" generating " ++ roleName r ++ " report: " ++ e).toList
    rw [string_toList_append, string_toList_append, string_toList_append,
      string_toList_append, string_toList_append]
    rfl
  · intro f
    rw [agentRun_eq f]
    rcases h0 : f 0 with t0 | m0 | m0
    · exact Or.inl ⟨0, by decide, by rw [h0]⟩
    · rcases hs0 : is503 m0 with _ | _
      · simp only [hs0, Bool.false_eq_true, if_false]
        exact Or.inr ⟨m0, rfl⟩
      · simp only [hs0, if_true]
        rcases h1 : f 1 with t1 | m1 | m1
        · exact Or.inl ⟨1, by decide, by rw [h1]⟩
        · rcases hs1 : is503 m1 with _ | _
          · simp only [hs1, Bool.false_eq_true, if_false]
            exact Or.inr ⟨m1, rfl⟩
          · simp only [hs1, if_true]
            rcases h2 : f 2 with t2 | m2 | m2
            · exact Or.inl ⟨2, by decide, by rw [h2]⟩
            · exact Or.inr ⟨m2, rfl⟩
            · exact Or.inr ⟨m2, rfl⟩
        · exact Or.inr ⟨m1, rfl⟩
    · exact Or.inr ⟨m0, rfl⟩

/-- Witness for C10: the captured crash of a concrete specialist task is
error-shaped. -/
theorem failure_results_are_error_shaped_witness :
    collectSpecialists (fun _ => TaskOutcome.exn "boom") Role.cardiologist =
      "Error generating cardiologist report: boom" ∧
    looks_like_error (collectSpecialists (fun _ => TaskOutcome.exn "boom")
      Role.cardiologist) = true :=
  failure_results_are_error_shaped.2.1 (fun _ => TaskOutcome.exn "boom")
    Role.cardiologist "boom" rfl

-- ### Theorems: cache key derivation (C8)

theorem startsWith_occurs {s pat : List Char}
    (h : startsWithChars s pat = true) : Occurs pat s := by
  obtain ⟨t, rfl⟩ := (startsWithChars_iff s pat).mp h
  exact ⟨[], t, rfl⟩

theorem replaceAllAux_no_occ (pat : List Char) :
    ∀ (fuel : Nat) (s : List Char), ¬ Occurs pat s →
      replaceAllAux pat fuel s = s := by
  intro fuel
  induction fuel with
  | zero =>
    intro s h
    cases s <;> rfl
  | succ g ih =>
    intro s h
    cases s with
    | nil => rfl
    | cons c rest =>
      have hsw : startsWithChars (c :: rest) pat = false := by
        cases hx : startsWithChars (c :: rest) pat
        · rfl
        · exact absurd (startsWith_occurs hx) h
      simp only [replaceAllAux, hsw, Bool.and_false, Bool.false_eq_true, if_false]
      rw [ih rest (fun ho => h (occurs_cons c ho))]

theorem replaceAll_no_occ {s pat : List Char} (h : ¬ Occurs pat s) :
    replaceAll s pat = s :=
  replaceAllAux_no_occ pat s.length s h

theorem replaceAllAux_strip (p : Char) (ps : List Char) :
    ∀ (base tail : List Char) (fuel : Nat),
      (base ++ (p :: ps) ++ tail).length ≤ fuel →
      (∀ i, i < base.length →
        startsWithChars ((base ++ (p :: ps) ++ tail).drop i) (p :: ps) = false) →
      ¬ Occurs (p :: ps) tail →
      replaceAllAux (p :: ps) fuel (base ++ (p :: ps) ++ tail) = base ++ tail := by
  intro base
  induction base with
  | nil =>
    intro tail fuel hfuel hin htail
    cases fuel with
    | zero => simp at hfuel
    | succ g =>
      have hsw : startsWithChars (p :: (ps ++ tail)) (p :: ps) = true := by
        have hw := (startsWithChars_iff ((p :: ps) ++ tail) (p :: ps)).mpr ⟨tail, rfl⟩
        simpa using hw
      simp only [List.nil_append, List.cons_append]
      simp only [replaceAllAux, hsw, List.isEmpty_cons, Bool.not_false, Bool.true_and,
        if_true, List.length_cons, List.drop_succ_cons, List.drop_left]
      exact replaceAllAux_no_occ (p :: ps) g tail htail
  | cons c base2 ih =>
    intro tail fuel hfuel hin htail
    cases fuel with
    | zero => simp at hfuel
    | succ g =>
      have hsw : startsWithChars (c :: (base2 ++ (p :: ps) ++ tail)) (p :: ps) = false := by
        have h0 := hin 0 (by simp)
        simpa using h0
      simp only [List.cons_append]
      simp only [replaceAllAux, hsw, Bool.and_false, Bool.false_eq_true, if_false]
      have hrest : replaceAllAux (p :: ps) g (base2 ++ (p :: ps) ++ tail) =
          base2 ++ tail := by
        apply ih tail g
        · simp only [List.cons_append, List.length_cons] at hfuel
          omega
        · intro i hi
          have hstep := hin (i + 1) (by simpa using Nat.succ_lt_succ hi)
          simpa [List.drop_succ_cons] using hstep
        · exact htail
      rw [hrest]

/-- C8 counterexample: the claim says a filename ending in one of the known
extensions maps to the filename with exactly that trailing extension
removed, but the key derivation deletes ALL occurrences of ".txt", ".pdf",
".doc", ".docx" in that order, so "a.docx" (which ends in ".docx") loses
its ".doc" substring first and maps to "ax", not "a"; the distinct
filenames "ax.txt" and "a.docx" therefore collide on the same key even
though their trailing-extension-stripped base names differ. -/
theorem cache_key_docx_counterexample :
    endsWithChars "a.docx".toList ".docx".toList = true ∧
    cache_key "a.docx" = "ax" ∧
    ¬ cache_key "a.docx" = "a" ∧
    cache_key "ax.txt" = cache_key "a.docx" ∧
    ¬ ("ax.txt" : String) = "a.docx" := by decide

/-- C8 (amended): the cache key is derived deterministically by deleting
all occurrences of ".txt", ".pdf", ".doc", ".docx" from the filename, in
that order.  A filename `base ++ ext` with ext one of ".txt"/".pdf"/".doc"
whose base contains no other occurrence of any of the extension substrings
maps to `base` (the trailing extension is removed); a filename
`base ++ ".docx"` instead maps to `base ++ "x"`, because the earlier
".doc" replacement consumes the ".doc" prefix of ".docx". -/
theorem cache_key_strips_trailing_extension :
    (∀ base : String,
      (∀ i, i < base.toList.length →
        startsWithChars ((base.toList ++ ".txt".toList).drop i) ".txt".toList = false) →
      containsSub base.toList ".pdf".toList = false →
      containsSub base.toList ".doc".toList = false →
      containsSub base.toList ".docx".toList = false →
      cache_key (base ++ ".txt") = base) ∧
    (∀ base : String,
      containsSub (base.toList ++ ".pdf".toList) ".txt".toList = false →
      (∀ i, i < base.toList.length →
        startsWithChars ((base.toList ++ ".pdf".toList).drop i) ".pdf".toList = false) →
      containsSub base.toList ".doc".toList = false →
      containsSub base.toList ".docx".toList = false →
      cache_key (base ++ ".pdf") = base) ∧
    (∀ base : String,
      containsSub (base.toList ++ ".doc".toList) ".txt".toList = false →
      containsSub (base.toList ++ ".doc".toList) ".pdf".toList = false →
      (∀ i, i < base.toList.length →
        startsWithChars ((base.toList ++ ".doc".toList).drop i) ".doc".toList = false) →
      containsSub base.toList ".docx".toList = false →
      cache_key (base ++ ".doc") = base) ∧
    (∀ base : String,
      containsSub (base.toList ++ ".docx".toList) ".txt".toList = false →
      containsSub (base.toList ++ ".docx".toList) ".pdf".toList = false →
      (∀ i, i < base.toList.length →
        startsWithChars ((base.toList ++ ".docx".toList).drop i) ".doc".toList = false) →
      containsSub (base.toList ++ ['x']) ".docx".toList = false →
      cache_key (base ++ ".docx") = base ++ "x") := by
  refine ⟨?_, ?_, ?_, ?_⟩
  · intro base h1 h2 h3 h4
    unfold cache_key
    rw [string_toList_append]
    have e1 : replaceAll (base.toList ++ ".txt".toList) ".txt".toList = base.toList := by
      have hs := replaceAllAux_strip '.' ['t', 'x', 't'] base.toList []
        (base.toList ++ ".txt".toList ++ []).length (le_refl _)
        (by simpa using h1)
        (not_occurs_of_containsSub_false (by decide))
      simpa [replaceAll] using hs
    rw [e1, replaceAll_no_occ (not_occurs_of_containsSub_false h2),
      replaceAll_no_occ (not_occurs_of_containsSub_false h3),
      replaceAll_no_occ (not_occurs_of_containsSub_false h4), ofChars_toList]
  · intro base h1 h2 h3 h4
    unfold cache_key
    rw [string_toList_append]
    rw [replaceAll_no_occ (not_occurs_of_containsSub_false h1)]
    have e1 : replaceAll (base.toList ++ ".pdf".toList) ".pdf".toList = base.toList := by
      have hs := replaceAllAux_strip '.' ['p', 'd', 'f'] base.toList []
        (base.toList ++ ".pdf".toList ++ []).length (le_refl _)
        (by simpa using h2)
        (not_occurs_of_containsSub_false (by decide))
      simpa [replaceAll] using hs
    rw [e1, replaceAll_no_occ (not_occurs_of_containsSub_false h3),
      replaceAll_no_occ (not_occurs_of_containsSub_false h4), ofChars_toList]
  · intro base h1 h2 h3 h4
    unfold cache_key
    rw [string_toList_append]
    rw [replaceAll_no_occ (not_occurs_of_containsSub_false h1),
      replaceAll_no_occ (not_occurs_of_containsSub_false h2)]
    have e1 : replaceAll (base.toList ++ ".doc".toList) ".doc".toList = base.toList := by
      have hs := replaceAllAux_strip '.' ['d', 'o', 'c'] base.toList []
        (base.toList ++ ".doc".toList ++ []).length (le_refl _)
        (by simpa using h3)
        (not_occurs_of_containsSub_false (by decide))
      simpa [replaceAll] using hs
    rw [e1, replaceAll_no_occ (not_occurs_of_containsSub_false h4), ofChars_toList]
  · intro base h1 h2 h3 h4
    unfold cache_key
    rw [string_toList_append]
    rw [replaceAll_no_occ (not_occurs_of_containsSub_false h1),
      replaceAll_no_occ (not_occurs_of_containsSub_false h2)]
    have e1 : replaceAll (base.toList ++ ".docx".toList) ".doc".toList =
        base.toList ++ ['x'] := by
      have hs := replaceAllAux_strip '.' ['d', 'o', 'c'] base.toList ['x']
        (base.toList ++ ".docx".toList).length
        (by simp)
        (by simpa using h3)
        (not_occurs_of_containsSub_false (by decide))
      simpa [replaceAll] using hs
    rw [e1, replaceAll_no_occ (not_occurs_of_containsSub_false h4)]
    have ex : (base ++ "x").toList = base.toList ++ ['x'] := by
      rw [string_toList_append]
      rfl
    rw [← ex, ofChars_toList]

/-- Witness for C8: the amended stripping behaviour on the concrete base
name "report". -/
theorem cache_key_strips_trailing_extension_witness :
    cache_key ("report" ++ ".txt") = "report" ∧
    cache_key ("report" ++ ".pdf") = "report" ∧
    cache_key ("report" ++ ".doc") = "report" ∧
    cache_key ("report" ++ ".docx") = "report" ++ "x" :=
  ⟨cache_key_strips_trailing_extension.1 "report" (by decide) (by decide)
      (by decide) (by decide),
   cache_key_strips_trailing_extension.2.1 "report" (by decide) (by decide)
      (by decide) (by decide),
   cache_key_strips_trailing_extension.2.2.1 "report" (by decide) (by decide)
      (by decide) (by decide),
   cache_key_strips_trailing_extension.2.2.2 "report" (by decide) (by decide)
      (by decide) (by decide)⟩
